import Mathlib

/-
Verification of the orchestration core of the telegram_monitor
repository: the message filter engine (message_filter.py), the pending
queue and batch/stats machinery of the orchestrator (monitor.py), the
daily digest job (daily_report.py) and the trend refresh job
(trend_updater.py), shallowly embedded from the Python source.
External gateways (Gemini analysis, SQLite persistence, WeChat
notification transport) are modelled as explicit inputs recording the
calls made and their outcomes.
-/

set_option maxHeartbeats 1000000

namespace TelegramMonitor

/-- Occurrence of `kw` as a contiguous block inside a character list. -/
def containsSeq (kw : List Char) : List Char → Bool
  | [] => kw.isEmpty
  | c :: cs => kw.isPrefixOf (c :: cs) || containsSeq kw cs

/-- Python substring containment `kw in text`, read on the code-point
sequences of the two strings. -/
def strContains (text kw : String) : Bool :=
  containsSeq kw.data text.data

/-- Matching of the literal part of the regex `https?://` at the head of
the character list (`URL_PATTERN` in message_filter.py); returns the
remaining characters when it matches.  The optional `s` needs no
backtracking because a successful bare `http://` match puts a colon,
never an `s`, after the `p`. -/
def urlTail : List Char → Option (List Char)
  | 'h' :: 't' :: 't' :: 'p' :: 's' :: ':' :: '/' :: '/' :: rest => some rest
  | 'h' :: 't' :: 't' :: 'p' :: ':' :: '/' :: '/' :: rest => some rest
  | _ => none

/-- Fuel-indexed left-to-right scan counting the non-overlapping matches
of `https?://\S+` exactly as `re.findall` enumerates them: on a failed
match the scan advances one character, on a successful match it resumes
after the greedy `\S+` run.  The fuel is always instantiated with the
length of the text, which bounds the number of scan steps because every
step consumes at least one character. -/
def countUrlsAux : Nat → List Char → Nat
  | 0, _ => 0
  | _, [] => 0
  | fuel + 1, c :: cs =>
    match urlTail (c :: cs) with
    | some (r :: rs) =>
      if !r.isWhitespace then
        1 + countUrlsAux fuel ((r :: rs).dropWhile (fun x => !x.isWhitespace))
      else
        countUrlsAux fuel cs
    | _ => countUrlsAux fuel cs

/-- Number of URL-like substrings of `text`, the length of
`URL_PATTERN.findall(text)` in `MessageFilter.filter_message`. -/
def countUrls (text : String) : Nat :=
  countUrlsAux text.data.length text.data

/-- Python `text.strip()` on the code-point sequence: leading and
trailing whitespace removed. -/
def stripChars (cs : List Char) : List Char :=
  (((cs.dropWhile Char.isWhitespace).reverse).dropWhile Char.isWhitespace).reverse

/-- Length of the stripped text, `len(text.strip())`. -/
def strippedLen (s : String) : Nat := (stripChars s.data).length

/-- Impact level of a message (`ImpactLevel` in message_filter.py). -/
inductive ImpactLevel where
  | high
  | medium
  | low
  | excluded
  deriving DecidableEq, Repr

/-- Result of classifying one message (`FilterResult` in
message_filter.py). -/
structure FilterResult where
  impact_level : ImpactLevel
  matched_keywords : List String
  category : String
  reason : String
  deriving DecidableEq, Repr

/-- State of the filter engine (`MessageFilter`).  The high and medium
keyword tables are Python dicts `keyword -> category`, embedded as
association lists in insertion order; the exclude keywords are a Python
set, embedded as a list in its iteration order. -/
structure MessageFilter where
  filter_mode : String
  min_length : Nat
  max_url_count : Nat
  high_keywords : List (String × String)
  medium_keywords : List (String × String)
  exclude_keywords : List String
  deriving DecidableEq, Repr

/-- One iteration of the keyword-table loop in
`MessageFilter.filter_message`: on a containment match the keyword is
appended to the matches and the category is recorded only when no
(non-empty) category has been recorded yet (`if not high_category`). -/
def scanStep (text : String) (acc : List String × String)
    (p : String × String) : List String × String :=
  if strContains text p.1 then
    (acc.1 ++ [p.1], if acc.2 = "" then p.2 else acc.2)
  else acc

/-- The whole keyword-table loop of `filter_message`, returning the
matched keywords in table-iteration order together with the recorded
category. -/
def scanKeywords (text : String) (kws : List (String × String)) :
    List String × String :=
  kws.foldl (scanStep text) ([], "")

/-- First non-empty category of an association list, the value the
category accumulator of the loop ends with (empty when every category
is empty). -/
def firstCat : List (String × String) → String
  | [] => ""
  | p :: rest => if p.2 = "" then firstCat rest else p.2

/-- Classification of one message, `MessageFilter.filter_message`.  The
reasons of the high and medium branches render the Python list slice
`matches[:3]` with Lean list notation rather than Python repr; no other
part of the result differs. -/
def filter_message (f : MessageFilter) (text : String) : FilterResult :=
  if text = "" ∨ strippedLen text < f.min_length then
    { impact_level := .excluded, matched_keywords := [], category := "",
      reason := "消息过短" }
  else if f.max_url_count < countUrls text then
    { impact_level := .excluded, matched_keywords := [], category := "",
      reason := "URL过多" }
  else
    match f.exclude_keywords.find? (fun keyword => strContains text keyword) with
    | some keyword =>
      { impact_level := .excluded, matched_keywords := [keyword], category := "",
        reason := "排除: " ++ keyword }
    | none =>
      if f.filter_mode = "ai_only" then
        { impact_level := .low, matched_keywords := [], category := "",
          reason := "AI Only: 全量分析" }
      else
        let high := scanKeywords text f.high_keywords
        if high.1 ≠ [] then
          { impact_level := .high, matched_keywords := high.1, category := high.2,
            reason := "高影响: " ++ toString (high.1.take 3) }
        else
          let medium := scanKeywords text f.medium_keywords
          if medium.1 ≠ [] then
            { impact_level := .medium, matched_keywords := medium.1,
              category := medium.2,
              reason := "中等: " ++ toString (medium.1.take 3) }
          else
            { impact_level := .low, matched_keywords := [], category := "",
              reason := "无匹配" }

/-
Orchestrator state (monitor.py): the pending queue is a
`deque(maxlen=200)`, the stats are the `Stats` dataclass, the ingestion
callback is `Monitor._on_message` and the batch job body is
`Monitor._process_batch`.  The Telegram client, the Gemini analyzer and
the WeChat notifier are external; their outputs enter the model as
explicit arguments, and the calls made to the persistence and
notification gateways are recorded in the returned effect records.
-/

/-- A triaged message waiting for batch analysis (`QueuedMessage`).
The wall-clock timestamp is abstracted as a tick. -/
structure QueuedMessage where
  text : String
  channel_title : String
  channel_id : Int
  timestamp : Nat
  deriving DecidableEq, Repr

/-- Runtime counters (`Stats` dataclass); the start time plays no role
in the claims and is omitted. -/
structure Stats where
  total : Nat
  queued : Nat
  excluded : Nat
  analyzed : Nat
  valuable : Nat
  pushed : Nat
  deriving DecidableEq, Repr

/-- All counters start at zero (dataclass defaults). -/
def initStats : Stats :=
  { total := 0, queued := 0, excluded := 0, analyzed := 0, valuable := 0,
    pushed := 0 }

/-- Append on a Python `deque(maxlen=cap)`: when the deque is full the
oldest (leftmost) entry is evicted to admit the new one. -/
def dequeAppend (cap : Nat) (q : List α) (x : α) : List α :=
  let q2 := q ++ [x]
  if cap < q2.length then q2.drop (q2.length - cap) else q2

/-- Queue capacity used by the orchestrator: `deque(maxlen=200)`. -/
def QUEUE_CAPACITY : Nat := 200

/-- `Monitor.IMPACT_THRESHOLD`. -/
def IMPACT_THRESHOLD : Int := 4

/-- Shared mutable state of the orchestrator: pending queue plus stats. -/
structure MonitorState where
  queue : List QueuedMessage
  stats : Stats
  deriving DecidableEq, Repr

/-- State at orchestrator construction: empty queue, zero counters. -/
def initMonitorState : MonitorState := { queue := [], stats := initStats }

/-- Ingestion callback `Monitor._on_message` for one delivered message:
empty text is dropped before any counting; otherwise `total` is
incremented, the text is classified, and the message is either counted
as excluded or wrapped and appended to the pending queue. -/
def on_message (cap : Nat) (f : MessageFilter) (st : MonitorState)
    (text channel_title : String) (channel_id : Int) (timestamp : Nat) :
    MonitorState :=
  if text = "" then st
  else
    let stats1 := { st.stats with total := st.stats.total + 1 }
    let result := filter_message f text
    if result.impact_level = .excluded then
      { st with stats := { stats1 with excluded := stats1.excluded + 1 } }
    else
      { queue := dequeAppend cap st.queue
          { text := text, channel_title := channel_title,
            channel_id := channel_id, timestamp := timestamp },
        stats := { stats1 with queued := stats1.queued + 1 } }

/-- One judged item returned by the analysis gateway: a JSON object of
which `_process_batch` reads `impact_magnitude` (default 0 absorbed
into the field). -/
structure AnalysisItem where
  summary : String
  impact_magnitude : Int
  deriving DecidableEq, Repr

/-- Outcome of `NewsAnalyzer.analyze_batch` as consumed by
`_process_batch`: a success flag and the judged items. -/
structure BatchAnalysisResult where
  success : Bool
  items : List AnalysisItem
  deriving DecidableEq, Repr

/-- Atomic drain of the pending queue, the
`messages = list(self._queue); self._queue.clear()` pair at the top of
`_process_batch`: returns the prior contents in FIFO order together
with the emptied queue. -/
def drain_all (q : List α) : List α × List α := (q, [])

/-- Observable effect of one `_process_batch` run: the new orchestrator
state, the argument of each `Storage.save_batch` call and the number of
`_push` attempts. -/
structure BatchEffect where
  state : MonitorState
  saveCalls : List (List AnalysisItem)
  pushAttempts : Nat
  deriving DecidableEq, Repr

/-- Batch job body `Monitor._process_batch`.  The analyzer response and
the outcome of the push transport are inputs (`result`, `pushOk`); the
notification body built by `_format_notification` and truncated by
`_push` does not affect state and is not tracked. -/
def process_batch (st : MonitorState) (result : BatchAnalysisResult)
    (pushOk : Bool) : BatchEffect :=
  let drained := drain_all st.queue
  let messages := drained.1
  let st1 : MonitorState := { st with queue := drained.2 }
  let st2 : MonitorState :=
    { st1 with stats :=
        { st1.stats with analyzed := st1.stats.analyzed + messages.length } }
  if !result.success then
    { state := st2, saveCalls := [], pushAttempts := 0 }
  else
    let valuable := result.items.filter
      (fun i => decide (IMPACT_THRESHOLD ≤ i.impact_magnitude))
    let st3 : MonitorState :=
      { st2 with stats :=
          { st2.stats with valuable := st2.stats.valuable + valuable.length } }
    if valuable = [] then
      { state := st3, saveCalls := [], pushAttempts := 0 }
    else
      let st4 : MonitorState :=
        if pushOk then
          { st3 with stats := { st3.stats with pushed := st3.stats.pushed + 1 } }
        else st3
      { state := st4, saveCalls := [valuable], pushAttempts := 1 }

/-- An operation of the orchestrator that touches the shared state:
either one ingestion-callback invocation or one batch-job run. -/
inductive MonitorOp where
  | message (f : MessageFilter) (text channel_title : String)
      (channel_id : Int) (timestamp : Nat)
  | batch (result : BatchAnalysisResult) (pushOk : Bool)

/-- Effect of one operation on the shared state. -/
def monitorStep (cap : Nat) (st : MonitorState) : MonitorOp → MonitorState
  | .message f text channel_title channel_id timestamp =>
    on_message cap f st text channel_title channel_id timestamp
  | .batch result pushOk => (process_batch st result pushOk).state

/-- State after a sequence of operations from the freshly constructed
orchestrator. -/
def runMonitorOps (cap : Nat) (ops : List MonitorOp) : MonitorState :=
  ops.foldl (monitorStep cap) initMonitorState

/-- Pointwise order on the six counters. -/
def statsLe (a b : Stats) : Prop :=
  a.total ≤ b.total ∧ a.queued ≤ b.queued ∧ a.excluded ≤ b.excluded ∧
  a.analyzed ≤ b.analyzed ∧ a.valuable ≤ b.valuable ∧ a.pushed ≤ b.pushed

/-
Daily digest job (daily_report.py).  The persistence gateway's answers
(`get_daily_messages`, `get_daily_stats`), the analyzer's narrative and
the notification transport outcome are inputs; the `mark_reported`
calls and the sent contents are recorded in the returned effect
records.  Dates and clock strings are opaque inputs.
-/

/-- One stored item as returned by `Storage.get_daily_messages`
(`TelegramMessage.to_dict`), restricted to the keys daily_report.py
reads: `id`, `summary`, `impact_direction`, `impact_magnitude`,
`affected_sectors`. -/
structure ReportMessage where
  id : Option Int
  summary : String
  impact_direction : String
  impact_magnitude : Int
  affected_sectors : List String
  deriving DecidableEq, Repr

/-- Aggregate answer of `Storage.get_daily_stats`; `sectors` is a dict
embedded as an association list in its iteration order. -/
structure DailyStats where
  total_count : Int
  valuable_count : Int
  bullish_count : Int
  bearish_count : Int
  sectors : List (String × Int)
  deriving DecidableEq, Repr

/-- Direction emoji of one bullet of `DailyReport._format`. -/
def directionEmoji (d : String) : String :=
  if d = "利好" then "🟢" else if d = "利空" then "🔴" else "⚪"

/-- The `top_sectors` string of `DailyReport._format`:
`' | '.join(...) or '无'` over the first five sectors. -/
def topSectors (sectors : List (String × Int)) : String :=
  let s := String.intercalate " | "
    ((sectors.take 5).map (fun p => p.1 ++ "(" ++ toString p.2 ++ ")"))
  if s = "" then "无" else s

/-- The `messages_text` block built inside `DailyReport.generate` and
handed to the analyzer: the first twenty items, enumerated from one. -/
def buildMessagesText (messages : List ReportMessage) : String :=
  String.intercalate "\n"
    (((messages.take 20).enumFrom 1).map (fun p =>
      toString p.1 ++ ". [" ++ p.2.impact_direction ++ "][" ++
      toString p.2.impact_magnitude ++ "] " ++ p.2.summary ++ " | " ++
      String.intercalate ", " (p.2.affected_sectors.take 3)))

/-- Report text composed by `DailyReport._format`: overview table, AI
narrative, then up to five high-impact and five medium-impact bullets. -/
def formatReport (target_date : String) (messages : List ReportMessage)
    (stats : DailyStats) (ai_analysis : String) (bj_time : String) : String :=
  let base : List String :=
    ["## 📰 时政经济早报 | " ++ target_date,
     "",
     "**生成时间**: " ++ bj_time,
     "",
     "---",
     "",
     "### 📊 昨日概览",
     "",
     "| 指标 | 数值 |",
     "|------|------|",
     "| 监听消息 | " ++ toString stats.total_count ++ " 条 |",
     "| 有价值 | " ++ toString stats.valuable_count ++ " 条 |",
     "| 利好/利空 | " ++ toString stats.bullish_count ++ "/" ++
       toString stats.bearish_count ++ " |",
     "| 热门板块 | " ++ topSectors stats.sectors ++ " |",
     "",
     "---",
     "",
     "### 🤖 AI 分析",
     "",
     ai_analysis,
     "",
     "---",
     "",
     "### 📋 重要消息",
     ""]
  let high := messages.filter (fun m => decide ((7 : Int) ≤ m.impact_magnitude))
  let medium := messages.filter (fun m =>
    decide ((4 : Int) ≤ m.impact_magnitude) && decide (m.impact_magnitude < 7))
  let highLines :=
    if high = [] then [] else
      ["**🔴 高影响**"] ++
      (high.take 5).map (fun m =>
        "- " ++ directionEmoji m.impact_direction ++ " " ++ m.summary) ++
      [""]
  let mediumLines :=
    if medium = [] then [] else
      ["**🟡 中等影响**"] ++
      (medium.take 5).map (fun m =>
        "- " ++ directionEmoji m.impact_direction ++ " " ++ m.summary)
  String.intercalate "\n" (base ++ highLines ++ mediumLines)

/-- Observable effect of `DailyReport.generate`: the report (None when
there is nothing to report) and the argument of each
`Storage.mark_reported` call. -/
structure GenerateEffect where
  report : Option String
  markCalls : List (List Int)
  deriving DecidableEq, Repr

/-- Digest composition `DailyReport.generate`.  `aiAnalyze` stands for
`NewsAnalyzer.generate_daily_report`, applied to the built messages
text and the aggregate stats.  Note the item IDs are marked as reported
here, inside `generate`, before any send is attempted; Python's
truthiness test `if m.get('id')` drops both missing and zero IDs. -/
def generate (aiAnalyze : String → DailyStats → String)
    (messages : List ReportMessage) (stats : DailyStats)
    (target_date : String) (bj_time : String) : GenerateEffect :=
  if messages = [] then { report := none, markCalls := [] }
  else
    let messages_text := buildMessagesText messages
    let ai_analysis := aiAnalyze messages_text stats
    let report := formatReport target_date messages stats ai_analysis bj_time
    let ids : List Int := messages.filterMap (fun m =>
      match m.id with
      | some i => if i = 0 then none else some i
      | none => none)
    let markCalls := if ids = [] then [] else [ids]
    { report := some report, markCalls := markCalls }

/-- Observable effect of `DailyReport.send`: the content handed to the
notification gateway (empty when no send happened) and the returned
flag. -/
structure SendEffect where
  sent : List String
  ok : Bool
  deriving DecidableEq, Repr

/-- Sending of `DailyReport.send`: empty reports are refused, long
reports are truncated to 3800 characters with a visible marker, and
the transport outcome `wechatOk` stands for
`NotificationService.send_to_wechat`. -/
def send (report : String) (wechatOk : Bool) : SendEffect :=
  if report = "" then { sent := [], ok := false }
  else
    let content :=
      if 3800 < report.length then (report.take 3800) ++ "\n...(已截断)"
      else report
    { sent := [content], ok := wechatOk }

/-- Observable effect of one `DailyReport.run`: the `mark_reported`
calls, the contents handed to the notification gateway and the returned
success flag. -/
structure RunEffect where
  markCalls : List (List Int)
  sent : List String
  ok : Bool
  deriving DecidableEq, Repr

/-- One digest job cycle `DailyReport.run`: generate, then send when a
(non-empty) report was produced. -/
def dailyRun (aiAnalyze : String → DailyStats → String)
    (messages : List ReportMessage) (stats : DailyStats)
    (target_date : String) (bj_time : String) (wechatOk : Bool) : RunEffect :=
  let g := generate aiAnalyze messages stats target_date bj_time
  match g.report with
  | some report =>
    if report = "" then { markCalls := g.markCalls, sent := [], ok := false }
    else
      let s := send report wechatOk
      { markCalls := g.markCalls, sent := s.sent, ok := s.ok }
  | none => { markCalls := g.markCalls, sent := [], ok := false }

/-
Trend refresh job (trend_updater.py together with `Monitor._trend_loop`).
The Gemini response text and its two parse attempts (direct, and after
stripping markdown fences) are inputs; the job records whether the
dynamic overlay was written and whether `Filter Engine.reload()` was
invoked.
-/

/-- Parsed structure of the dynamic keyword overlay written by
`TrendUpdater._save`. -/
structure TrendData where
  high : List (String × List String)
  medium : List (String × List String)
  deriving DecidableEq, Repr

/-- Keyword refresh `TrendUpdater.update`: fails without an API key,
on a missing or empty response, and when both JSON parse attempts fail;
otherwise the parsed overlay is saved and success is reported.  Returns
(success, saved overlay). -/
def trendUpdate (hasApiKey : Bool) (responseText : Option String)
    (parsedDirect parsedClean : Option TrendData) : Bool × Option TrendData :=
  if !hasApiKey then (false, none)
  else
    match responseText with
    | some t =>
      if t = "" then (false, none)
      else
        match parsedDirect with
        | some d => (true, some d)
        | none =>
          match parsedClean with
          | some d => (true, some d)
          | none => (false, none)
    | none => (false, none)

/-- Observable effect of one trend refresh run: the overlay written (if
any), whether the filter engine was reloaded, and the run's success. -/
structure TrendRunEffect where
  savedData : Option TrendData
  reloadCalled : Bool
  success : Bool
  deriving DecidableEq, Repr

/-- The run executed at orchestrator startup (`Monitor._trend_loop`
before its while loop): `update` is invoked and `reload()` follows
unconditionally, whatever `update` returned. -/
def trendStartupRun (hasApiKey : Bool) (responseText : Option String)
    (parsedDirect parsedClean : Option TrendData) : TrendRunEffect :=
  let u := trendUpdate hasApiKey responseText parsedDirect parsedClean
  { savedData := u.2, reloadCalled := true, success := u.1 }

/-- A scheduled run inside the while loop of `Monitor._trend_loop`:
`reload()` is invoked only when `update` reported success. -/
def trendScheduledRun (hasApiKey : Bool) (responseText : Option String)
    (parsedDirect parsedClean : Option TrendData) : TrendRunEffect :=
  let u := trendUpdate hasApiKey responseText parsedDirect parsedClean
  { savedData := u.2, reloadCalled := u.1, success := u.1 }

/-- An operation on the pending queue alone: the `offer` performed by
the ingestion callback or the atomic drain performed by the batch job. -/
inductive QueueOp (α : Type) where
  | offer (x : α)
  | drain

/-- Effect of one queue operation. -/
def queueOpStep (cap : Nat) (q : List α) : QueueOp α → List α
  | .offer x => dequeAppend cap q x
  | .drain => (drain_all q).2

/-- Queue contents after a sequence of operations from the empty
queue. -/
def runQueueOps (cap : Nat) (ops : List (QueueOp α)) : List α :=
  ops.foldl (queueOpStep cap) []

/-
Concrete instances used to evaluate the embedded code on particular
inputs.
-/

/-- Filter configured in AI-only mode with one exclude keyword, the
spec's concrete exclusion scenario. -/
def c1f : MessageFilter :=
  { filter_mode := "ai_only", min_length := 10, max_url_count := 3,
    high_keywords := [], medium_keywords := [], exclude_keywords := ["VIP"] }

/-- Standard-mode filter with the spec's concrete high-tier ruleset. -/
def c2f : MessageFilter :=
  { filter_mode := "standard", min_length := 10, max_url_count := 3,
    high_keywords := [("降准", "货币政策")], medium_keywords := [],
    exclude_keywords := [] }

/-- Standard-mode filter whose first high-tier keyword carries an empty
category. -/
def c2cf : MessageFilter :=
  { filter_mode := "standard", min_length := 10, max_url_count := 3,
    high_keywords := [("alpha", ""), ("beta", "X")], medium_keywords := [],
    exclude_keywords := [] }

/-- Orchestrator state with one pending message and fresh counters. -/
def c3State : MonitorState :=
  { queue := [{ text := "某条消息内容", channel_title := "频道", channel_id := 1,
                timestamp := 0 }],
    stats := initStats }

/-- Successful analysis answer whose only item is below the valuable
threshold. -/
def c3Result : BatchAnalysisResult :=
  { success := true, items := [{ summary := "轻微影响", impact_magnitude := 3 }] }

/-- Successful analysis answer with one valuable item. -/
def c3wResult : BatchAnalysisResult :=
  { success := true, items := [{ summary := "重大利好", impact_magnitude := 5 }] }

/-- Orchestrator state with five pending messages. -/
def c4State : MonitorState :=
  { queue :=
      [{ text := "消息一", channel_title := "频道", channel_id := 1, timestamp := 0 },
       { text := "消息二", channel_title := "频道", channel_id := 1, timestamp := 1 },
       { text := "消息三", channel_title := "频道", channel_id := 1, timestamp := 2 },
       { text := "消息四", channel_title := "频道", channel_id := 1, timestamp := 3 },
       { text := "消息五", channel_title := "频道", channel_id := 1, timestamp := 4 }],
    stats := initStats }

/-- Failed analysis answer (`{success: false}`). -/
def c4Result : BatchAnalysisResult := { success := false, items := [] }

/-- One valuable stored item (id 1) returned by the persistence
gateway for the target date. -/
def c5Messages : List ReportMessage :=
  [{ id := some 1, summary := "降准公告", impact_direction := "利好",
     impact_magnitude := 5, affected_sectors := ["银行"] }]

/-- Aggregate stats for the same date. -/
def c5Stats : DailyStats :=
  { total_count := 1, valuable_count := 1, bullish_count := 1,
    bearish_count := 0, sectors := [("银行", 1)] }

/-
Helper lemmas.
-/

/-- Appending on a bounded deque never leaves more than `cap` entries,
whatever the prior contents. -/
theorem dequeAppend_length_le (cap : Nat) (q : List α) (x : α) :
    (dequeAppend cap q x).length ≤ cap := by
  unfold dequeAppend
  dsimp only
  split
  · rename_i h
    rw [List.length_drop]
    omega
  · rename_i h
    omega

/-- A full deque evicts its oldest entry and retains the new one. -/
theorem dequeAppend_full (cap : Nat) (q : List α) (x : α)
    (hcap : 1 ≤ cap) (hfull : q.length = cap) :
    dequeAppend cap q x = q.drop 1 ++ [x] := by
  unfold dequeAppend
  dsimp only
  rw [if_pos (by simp [hfull])]
  have h1 : (q ++ [x]).length - cap = 1 := by simp [hfull]
  rw [h1, List.drop_append_of_le_length (by omega)]

/-- Any sequence of queue operations keeps the queue within its
capacity. -/
theorem runQueueOps_length_le (cap : Nat) (ops : List (QueueOp α)) :
    (runQueueOps cap ops).length ≤ cap := by
  have main : ∀ (l : List (QueueOp α)) (q : List α), q.length ≤ cap →
      (l.foldl (queueOpStep cap) q).length ≤ cap := by
    intro l
    induction l with
    | nil => intro q hq; exact hq
    | cons op rest ih =>
      intro q hq
      cases op with
      | offer x => exact ih _ (dequeAppend_length_le cap q x)
      | drain => exact ih _ (Nat.zero_le cap)
  exact main ops [] (Nat.zero_le cap)

/-
Claim theorems.
-/

/-- C7: after any sequence of offer and drain operations the pending
queue holds at most its capacity `cap`; a full queue's `offer` (the
`deque(maxlen)` append, which neither blocks nor fails) evicts the
oldest entry and retains the new one; and with capacity 2, offering a,
b, c and draining yields exactly [b, c]. -/
theorem C7_queue_bounded (α : Type) (cap : Nat) (ops : List (QueueOp α))
    (q : List α) (x : α) (hcap : 1 ≤ cap) (hfull : q.length = cap) :
    (runQueueOps cap ops).length ≤ cap ∧
    dequeAppend cap q x = q.drop 1 ++ [x] ∧
    (drain_all (dequeAppend 2 (dequeAppend 2 (dequeAppend 2 ([] : List String)
        "a") "b") "c")).1 = ["b", "c"] :=
  ⟨runQueueOps_length_le cap ops, dequeAppend_full cap q x hcap hfull, by decide⟩

/-- Witness for C7 at capacity 2, the offers a, b, c and the full queue
[a, b]. -/
theorem C7_witness :
    1 ≤ 2 ∧ (["a", "b"] : List String).length = 2 ∧
    ((runQueueOps 2 [QueueOp.offer "a", QueueOp.offer "b",
        QueueOp.offer "c"]).length ≤ 2 ∧
     dequeAppend 2 (["a", "b"] : List String) "c"
        = (["a", "b"] : List String).drop 1 ++ ["c"] ∧
     (drain_all (dequeAppend 2 (dequeAppend 2 (dequeAppend 2
        ([] : List String) "a") "b") "c")).1 = ["b", "c"]) :=
  ⟨by decide, by decide,
   C7_queue_bounded String 2 [QueueOp.offer "a", QueueOp.offer "b",
     QueueOp.offer "c"] ["a", "b"] "c" (by decide) (by decide)⟩

/-- C8: draining returns the prior queue contents in FIFO (enqueue)
order and leaves the queue empty, so an immediately repeated drain
returns the empty sequence. -/
theorem C8_drain_idempotent (α : Type) (q : List α) :
    (drain_all q).1 = q ∧ (drain_all q).2 = [] ∧
    (drain_all (drain_all q).2).1 = [] :=
  ⟨rfl, rfl, rfl⟩

/-- C9: when the persistence gateway returns no items for the target
date, the digest run is a no-op: nothing is marked as reported, nothing
is handed to the notification gateway, and the run simply reports
false (the embedding is total, so no error is raised). -/
theorem C9_empty_digest_noop (aiAnalyze : String → DailyStats → String)
    (stats : DailyStats) (target_date bj_time : String) (wechatOk : Bool) :
    (dailyRun aiAnalyze [] stats target_date bj_time wechatOk).markCalls = [] ∧
    (dailyRun aiAnalyze [] stats target_date bj_time wechatOk).sent = [] ∧
    (dailyRun aiAnalyze [] stats target_date bj_time wechatOk).ok = false :=
  ⟨rfl, rfl, rfl⟩

/-- C4: on a failed analysis answer the batch job increments `analyzed`
by exactly the batch size, leaves `valuable` and `pushed` unchanged,
performs no persistence call, attempts no push, and discards the
drained batch (the queue is left empty, so nothing is retried in this
cycle). -/
theorem C4_gateway_failure (st : MonitorState) (result : BatchAnalysisResult)
    (pushOk : Bool) (hfail : result.success = false) :
    (process_batch st result pushOk).state.stats.analyzed
        = st.stats.analyzed + st.queue.length ∧
    (process_batch st result pushOk).state.stats.valuable = st.stats.valuable ∧
    (process_batch st result pushOk).state.stats.pushed = st.stats.pushed ∧
    (process_batch st result pushOk).saveCalls = [] ∧
    (process_batch st result pushOk).pushAttempts = 0 ∧
    (process_batch st result pushOk).state.queue = [] := by
  simp [process_batch, drain_all, hfail]

/-- Witness for C4: a batch of five queued messages and the failed
answer `{success: false}`. -/
theorem C4_witness :
    c4Result.success = false ∧
    ((process_batch c4State c4Result true).state.stats.analyzed
        = c4State.stats.analyzed + c4State.queue.length ∧
     (process_batch c4State c4Result true).state.stats.valuable
        = c4State.stats.valuable ∧
     (process_batch c4State c4Result true).state.stats.pushed
        = c4State.stats.pushed ∧
     (process_batch c4State c4Result true).saveCalls = [] ∧
     (process_batch c4State c4Result true).pushAttempts = 0 ∧
     (process_batch c4State c4Result true).state.queue = []) :=
  ⟨by decide, C4_gateway_failure c4State c4Result true (by decide)⟩

/-- C3 counterexample: a successful analysis of a one-message batch
whose only returned item falls below the valuable threshold (M = 0).
The claim promises exactly one notification push attempt for every
M ≥ 0, but the code attempts none (and performs no persistence call
either, the `if valuable:` guard). -/
theorem C3_counterexample :
    c3State.queue.length = 1 ∧ c3Result.success = true ∧
    (c3Result.items.filter
        (fun i => decide (IMPACT_THRESHOLD ≤ i.impact_magnitude))).length = 0 ∧
    (process_batch c3State c3Result true).pushAttempts = 0 ∧
    (process_batch c3State c3Result true).saveCalls = [] := by
  decide

/-- C3 as amended: on a successful analysis of a drained batch of
N ≥ 1 messages, when M ≥ 1 items meet the valuable threshold exactly
those items are persisted in one persistence-gateway call and exactly
one push is attempted; when M = 0 there is no persistence call and no
push attempt. -/
theorem C3_amended (st : MonitorState) (result : BatchAnalysisResult)
    (pushOk : Bool) (hN : 1 ≤ st.queue.length) (hs : result.success = true) :
    (result.items.filter
        (fun i => decide (IMPACT_THRESHOLD ≤ i.impact_magnitude)) = [] →
      (process_batch st result pushOk).saveCalls = [] ∧
      (process_batch st result pushOk).pushAttempts = 0) ∧
    (result.items.filter
        (fun i => decide (IMPACT_THRESHOLD ≤ i.impact_magnitude)) ≠ [] →
      (process_batch st result pushOk).saveCalls
          = [result.items.filter
              (fun i => decide (IMPACT_THRESHOLD ≤ i.impact_magnitude))] ∧
      (process_batch st result pushOk).pushAttempts = 1) := by
  constructor
  · intro hempty
    simp [process_batch, drain_all, hs, hempty]
  · intro hne
    simp [process_batch, drain_all, hs, hne]

/-- Witness for C3 at a one-message batch and one valuable item. -/
theorem C3_witness :
    1 ≤ c3State.queue.length ∧ c3wResult.success = true ∧
    ((c3wResult.items.filter
        (fun i => decide (IMPACT_THRESHOLD ≤ i.impact_magnitude)) = [] →
      (process_batch c3State c3wResult true).saveCalls = [] ∧
      (process_batch c3State c3wResult true).pushAttempts = 0) ∧
     (c3wResult.items.filter
        (fun i => decide (IMPACT_THRESHOLD ≤ i.impact_magnitude)) ≠ [] →
      (process_batch c3State c3wResult true).saveCalls
          = [c3wResult.items.filter
              (fun i => decide (IMPACT_THRESHOLD ≤ i.impact_magnitude))] ∧
      (process_batch c3State c3wResult true).pushAttempts = 1)) :=
  ⟨by decide, by decide, C3_amended c3State c3wResult true (by decide) (by decide)⟩

/-- C5, behavior of the code at the failing input: one valuable stored
item (id 1) is returned for the target date and the notification
transport fails, yet the run has already marked id 1 as reported inside
`generate`, before the send; the claim requires that no item be marked
on a failed run. -/
theorem C5_mark_despite_failed_send :
    (dailyRun (fun _ _ => "综合分析") c5Messages c5Stats "2026-10-11" "08:30"
        false).ok = false ∧
    (dailyRun (fun _ _ => "综合分析") c5Messages c5Stats "2026-10-11" "08:30"
        false).markCalls = [[1]] ∧
    (dailyRun (fun _ _ => "综合分析") c5Messages c5Stats "2026-10-11" "08:30"
        false).sent ≠ [] := by
  decide

/-- C6 counterexample: a run whose gateway output is unparsable (both
JSON parse attempts fail), executed at orchestrator startup: `update`
reports failure, yet `reload()` is invoked anyway, against the claim
that reload is skipped on every failed run including the startup one. -/
theorem C6_counterexample :
    (trendUpdate true (some "这不是JSON输出") none none).1 = false ∧
    (trendStartupRun true (some "这不是JSON输出") none none).reloadCalled = true := by
  decide

/-- On a failed keyword refresh nothing is saved. -/
theorem trendUpdate_fail_none (hasApiKey : Bool) (responseText : Option String)
    (pd pc : Option TrendData)
    (h : (trendUpdate hasApiKey responseText pd pc).1 = false) :
    (trendUpdate hasApiKey responseText pd pc).2 = none := by
  unfold trendUpdate at h ⊢
  cases hasApiKey <;> cases responseText <;> cases pd <;> cases pc <;>
    simp_all <;> split at h <;> simp_all

/-- C6 as amended: on every scheduled trend-refresh run whose update
reports failure (in particular on malformed or unparsable gateway
output) the dynamic overlay is left unwritten and `reload()` is not
invoked, the refresh being retried only at the next scheduled time;
the startup run, however, invokes `reload()` unconditionally, whatever
its update returned. -/
theorem C6_amended (hasApiKey : Bool) (responseText : Option String)
    (parsedDirect parsedClean : Option TrendData)
    (hfail : (trendUpdate hasApiKey responseText parsedDirect parsedClean).1
        = false) :
    (trendScheduledRun hasApiKey responseText parsedDirect
        parsedClean).reloadCalled = false ∧
    (trendScheduledRun hasApiKey responseText parsedDirect
        parsedClean).savedData = none ∧
    ∀ (k : Bool) (r : Option String) (pd pc : Option TrendData),
      (trendStartupRun k r pd pc).reloadCalled = true :=
  ⟨hfail, trendUpdate_fail_none hasApiKey responseText parsedDirect parsedClean
      hfail,
   fun _ _ _ _ => rfl⟩

/-- Witness for C6 at a concrete unparsable response. -/
theorem C6_witness :
    (trendUpdate true (some "乱码输出") none none).1 = false ∧
    ((trendScheduledRun true (some "乱码输出") none none).reloadCalled = false ∧
     (trendScheduledRun true (some "乱码输出") none none).savedData = none ∧
     ∀ (k : Bool) (r : Option String) (pd pc : Option TrendData),
       (trendStartupRun k r pd pc).reloadCalled = true) :=
  ⟨by decide, C6_amended true (some "乱码输出") none none (by decide)⟩

/-- C1: any text containing an exclude keyword classifies as Excluded
— also when it contains high-tier keywords, and in every filter mode,
AI-only included, since the exclude scan precedes the mode branch; and
when the text passes the length and URL pre-checks, the matched exclude
keyword is reported in `matched_keywords` and named in the reason. -/
theorem C1_exclude_wins (f : MessageFilter) (text kw : String)
    (hmem : kw ∈ f.exclude_keywords) (hit : strContains text kw = true) :
    (filter_message f text).impact_level = .excluded ∧
    (¬(text = "" ∨ strippedLen text < f.min_length) →
      ¬(f.max_url_count < countUrls text) →
      ∃ k, k ∈ f.exclude_keywords ∧ strContains text k = true ∧
        (filter_message f text).matched_keywords = [k] ∧
        (filter_message f text).reason = "排除: " ++ k) := by
  have hsome : (f.exclude_keywords.find?
      (fun keyword => strContains text keyword)).isSome := by
    rw [List.find?_isSome]
    exact ⟨kw, hmem, hit⟩
  obtain ⟨k, hk⟩ := Option.isSome_iff_exists.mp hsome
  have hkmem : k ∈ f.exclude_keywords := List.mem_of_find?_eq_some hk
  have hkp : strContains text k = true := List.find?_some hk
  constructor
  · by_cases h1 : text = "" ∨ strippedLen text < f.min_length
    · unfold filter_message
      rw [if_pos h1]
    · by_cases h2 : f.max_url_count < countUrls text
      · unfold filter_message
        rw [if_neg h1, if_pos h2]
      · unfold filter_message
        rw [if_neg h1, if_neg h2, hk]
  · intro h1 h2
    refine ⟨k, hkmem, hkp, ?_, ?_⟩ <;>
      · unfold filter_message
        rw [if_neg h1, if_neg h2, hk]

/-- Witness for C1: the spec's concrete exclusion scenario, run with
the filter in AI-only mode. -/
theorem C1_witness :
    "VIP" ∈ c1f.exclude_keywords ∧
    strContains "加群领取VIP内幕荐股" "VIP" = true ∧
    (filter_message c1f "加群领取VIP内幕荐股").impact_level
        = ImpactLevel.excluded ∧
    ∃ k, k ∈ c1f.exclude_keywords ∧
      strContains "加群领取VIP内幕荐股" k = true ∧
      (filter_message c1f "加群领取VIP内幕荐股").matched_keywords = [k] ∧
      (filter_message c1f "加群领取VIP内幕荐股").reason = "排除: " ++ k :=
  ⟨by decide, by decide,
   (C1_exclude_wins c1f "加群领取VIP内幕荐股" "VIP" (by decide) (by decide)).1,
   (C1_exclude_wins c1f "加群领取VIP内幕荐股" "VIP" (by decide) (by decide)).2
     (by decide) (by decide)⟩

/-- The keyword-table loop, characterized: the matches are the matching
keywords in table order, and the recorded category is the first
non-empty category among them. -/
theorem scanKeywords_go (text : String) (kws : List (String × String))
    (m : List String) (c : String) :
    kws.foldl (scanStep text) (m, c) =
      (m ++ (kws.filter (fun p => strContains text p.1)).map Prod.fst,
       if c = "" then firstCat (kws.filter (fun p => strContains text p.1))
       else c) := by
  induction kws generalizing m c with
  | nil =>
    by_cases hc : c = "" <;> simp [firstCat, hc]
  | cons p rest ih =>
    rw [List.foldl_cons]
    by_cases hp : strContains text p.1 = true
    · rw [show scanStep text (m, c) p
          = (m ++ [p.1], if c = "" then p.2 else c) by simp [scanStep, hp]]
      rw [ih]
      by_cases hc : c = ""
      · by_cases hp2 : p.2 = "" <;>
          simp [List.filter_cons, hp, hc, hp2, firstCat]
      · simp [List.filter_cons, hp, hc, firstCat]
    · rw [show scanStep text (m, c) p = (m, c) by simp [scanStep, hp]]
      rw [ih]
      simp [List.filter_cons, hp]

/-- Same statement for the loop as packaged by `scanKeywords`. -/
theorem scanKeywords_spec (text : String) (kws : List (String × String)) :
    scanKeywords text kws =
      ((kws.filter (fun p => strContains text p.1)).map Prod.fst,
       firstCat (kws.filter (fun p => strContains text p.1))) := by
  rw [scanKeywords, scanKeywords_go]
  simp

/-- C2 counterexample: in standard mode, the text matching the
high-tier keywords alpha (category empty) and beta (category X), in
that table order.  The claim requires the category of the first
matching keyword — the empty string — but the code skips empty
categories and returns X. -/
theorem C2_counterexample :
    (filter_message c2cf "alpha beta gamma").impact_level = ImpactLevel.high ∧
    (filter_message c2cf "alpha beta gamma").matched_keywords
        = ["alpha", "beta"] ∧
    c2cf.high_keywords.head? = some ("alpha", "") ∧
    (filter_message c2cf "alpha beta gamma").category = "X" ∧
    ("X" : String) ≠ "" := by
  decide

/-- C2 as amended: in standard mode, a text passing the pre-checks and
the exclude scan that matches at least one high-tier keyword classifies
High, with `matched_keywords` all matching high-tier keywords in
ruleset iteration (insertion) order, and with the category of the first
matching keyword in that order whose category is non-empty (the empty
string when all matching keywords carry empty categories). -/
theorem C2_high_tier (f : MessageFilter) (text : String)
    (hmode : f.filter_mode ≠ "ai_only")
    (hlen : ¬(text = "" ∨ strippedLen text < f.min_length))
    (hurl : ¬(f.max_url_count < countUrls text))
    (hexc : ∀ k ∈ f.exclude_keywords, strContains text k = false)
    (hhigh : ∃ p, p ∈ f.high_keywords ∧ strContains text p.1 = true) :
    (filter_message f text).impact_level = .high ∧
    (filter_message f text).matched_keywords
        = (f.high_keywords.filter (fun p => strContains text p.1)).map Prod.fst ∧
    (filter_message f text).category
        = firstCat (f.high_keywords.filter (fun p => strContains text p.1)) := by
  have hfind : f.exclude_keywords.find?
      (fun keyword => strContains text keyword) = none := by
    rw [List.find?_eq_none]
    intro x hx
    simp [hexc x hx]
  have hne : (f.high_keywords.filter
      (fun p => strContains text p.1)).map Prod.fst ≠ [] := by
    obtain ⟨p, hpmem, hp⟩ := hhigh
    exact List.ne_nil_of_mem
      (List.mem_map_of_mem Prod.fst (List.mem_filter.mpr ⟨hpmem, hp⟩))
  unfold filter_message
  rw [if_neg hlen, if_neg hurl, hfind]
  simp only [if_neg hmode, scanKeywords_spec]
  rw [if_pos hne]
  exact ⟨rfl, rfl, rfl⟩

/-- Witness for C2 at the spec's concrete high-tier scenario. -/
theorem C2_witness :
    c2f.filter_mode ≠ "ai_only" ∧
    ¬(("央行宣布降准0.5个百分点" : String) = ""
        ∨ strippedLen "央行宣布降准0.5个百分点" < c2f.min_length) ∧
    ¬(c2f.max_url_count < countUrls "央行宣布降准0.5个百分点") ∧
    (∀ k ∈ c2f.exclude_keywords,
        strContains "央行宣布降准0.5个百分点" k = false) ∧
    ((filter_message c2f "央行宣布降准0.5个百分点").impact_level
        = ImpactLevel.high ∧
     (filter_message c2f "央行宣布降准0.5个百分点").matched_keywords
        = (c2f.high_keywords.filter
            (fun p => strContains "央行宣布降准0.5个百分点" p.1)).map Prod.fst ∧
     (filter_message c2f "央行宣布降准0.5个百分点").category
        = firstCat (c2f.high_keywords.filter
            (fun p => strContains "央行宣布降准0.5个百分点" p.1))) :=
  ⟨by decide, by decide, by decide, by decide,
   C2_high_tier c2f "央行宣布降准0.5个百分点" (by decide) (by decide)
     (by decide) (by decide)
     ⟨("降准", "货币政策"), by decide, by decide⟩⟩

/-- One orchestrator operation preserves the ingestion balance
`total = queued + excluded`. -/
theorem monitorStep_balance (cap : Nat) (st : MonitorState) (op : MonitorOp)
    (h : st.stats.total = st.stats.queued + st.stats.excluded) :
    (monitorStep cap st op).stats.total
        = (monitorStep cap st op).stats.queued
          + (monitorStep cap st op).stats.excluded := by
  cases op with
  | message f text ct ci ts =>
    simp only [monitorStep, on_message]
    split_ifs <;> (try simp) <;> omega
  | batch r p =>
    simp only [monitorStep, process_batch, drain_all]
    split_ifs <;> (try simp) <;> omega

/-- No orchestrator operation decreases any counter. -/
theorem monitorStep_mono (cap : Nat) (st : MonitorState) (op : MonitorOp) :
    statsLe st.stats (monitorStep cap st op).stats := by
  cases op with
  | message f text ct ci ts =>
    simp only [monitorStep, on_message]
    split_ifs <;> (try simp [statsLe]) <;> omega
  | batch r p =>
    simp only [monitorStep, process_batch, drain_all]
    split_ifs <;> (try simp [statsLe]) <;> omega

/-- C10: starting from the freshly constructed orchestrator (all
counters zero), after any sequence of completed ingestion-callback
invocations and batch runs the counters satisfy
`total = queued + excluded` — each counted message increments `total`
and exactly one of `queued` or `excluded` — and no operation ever
decreases any counter. -/
theorem C10_stats_invariant (cap : Nat) (ops : List MonitorOp)
    (st : MonitorState) (op : MonitorOp) :
    ((runMonitorOps cap ops).stats.total
        = (runMonitorOps cap ops).stats.queued
          + (runMonitorOps cap ops).stats.excluded) ∧
    statsLe st.stats (monitorStep cap st op).stats := by
  constructor
  · have main : ∀ (l : List MonitorOp) (s : MonitorState),
        s.stats.total = s.stats.queued + s.stats.excluded →
        (l.foldl (monitorStep cap) s).stats.total
          = (l.foldl (monitorStep cap) s).stats.queued
            + (l.foldl (monitorStep cap) s).stats.excluded := by
      intro l
      induction l with
      | nil => intro s hs; exact hs
      | cons o rest ih =>
        intro s hs
        exact ih _ (monitorStep_balance cap s o hs)
    exact main ops initMonitorState rfl
  · exact monitorStep_mono cap st op

end TelegramMonitor
